import Mathlib

/-!
Verification of the command-dispatch and callback-multiplexing layer of
`pymata_aio/pymata_iot.py` (class `PymataIOT`).

The file shallowly embeds the module: JSON values are the inductive `JVal`;
each handler method of `PymataIOT` becomes a Lean function from a device
environment (`CoreEnv`, the value-returning operations of `PymataCore`) and
the decoded `params` value to an `Except PyErr (List Effect)`, where an
`Effect` records, in order, each invocation of a `PymataCore` operation and
each `sendMessage` of an outbound JSON message.  Python exceptions raised by
`int(...)`, subscripting and `datetime` are modelled by `PyErr`.
`asyncio.sleep` calls and `print` diagnostics produce no effect.
-/

/-- A JSON value as handled by `json.loads` / `json.dumps` in this module
(no booleans or floats occur in the protocol). -/
inductive JVal where
  | null : JVal
  | str (s : String) : JVal
  | int (n : Int) : JVal
  | arr (elems : List JVal) : JVal

/-- The Python exceptions this layer can raise. -/
inductive PyErr where
  | typeError : PyErr
  | valueError : PyErr
  | indexError : PyErr
deriving DecidableEq, Repr

/-- Python `v == s` between a JSON value and a string literal (equal only
when `v` is that string). -/
def pyEqStr (v : JVal) (s : String) : Bool :=
  match v with
  | .str t => t == s
  | _ => false

/-- One observable action of a handler: an invocation of a `PymataCore`
operation (with positional arguments and, when the source passes a bound
callback method, that callback's name), or a `sendMessage` of an outbound
JSON message `{"method": method, "params": params}`. -/
inductive Effect where
  | call (op : String) (args : List JVal) (cb : Option String) : Effect
  | send (method : String) (params : JVal) : Effect

/-- Python truthiness of a JSON value (`if value:`). -/
def pyTruthy : JVal → Bool
  | .null => false
  | .str s => !s.isEmpty
  | .int n => n != 0
  | .arr xs => !xs.isEmpty

/-- Decimal digits to a natural number; `none` unless the list is nonempty
and all digits. -/
def decDigits : List Char → Option Nat
  | [] => none
  | cs => cs.foldlM (fun acc c => if c.isDigit then some (acc * 10 + (c.toNat - 48)) else none) 0

/-- Surrounding whitespace removal (the stripping `int(str)` performs). -/
def stripWs (cs : List Char) : List Char :=
  ((cs.dropWhile Char.isWhitespace).reverse.dropWhile Char.isWhitespace).reverse

/-- Python `int(s)` on a string: optional surrounding whitespace, an
optional sign, then decimal digits; otherwise `ValueError`. -/
def pyIntOfString (s : String) : Except PyErr Int :=
  match stripWs s.toList with
  | '-' :: rest =>
    match decDigits rest with
    | some n => .ok (-(n : Int))
    | none => .error .valueError
  | '+' :: rest =>
    match decDigits rest with
    | some n => .ok (n : Int)
    | none => .error .valueError
  | cs =>
    match decDigits cs with
    | some n => .ok (n : Int)
    | none => .error .valueError

/-- Python `int(x)` on a JSON value. -/
def pyInt : JVal → Except PyErr Int
  | .int n => .ok n
  | .str s => pyIntOfString s
  | _ => .error .typeError

/-- Python subscripting `v[i]` on a JSON value (lists and strings are
subscriptable; a string yields a one-character string). -/
def pyGetItem (v : JVal) (i : Nat) : Except PyErr JVal :=
  match v with
  | .arr xs =>
    match xs.get? i with
    | some x => .ok x
    | none => .error .indexError
  | .str s =>
    match s.toList.get? i with
    | some c => .ok (.str (String.mk [c]))
    | none => .error .indexError
  | _ => .error .typeError

/-- Python slicing `v[0:-1]` (drop the last element). -/
def pySlice0m1 : JVal → Except PyErr JVal
  | .arr xs => .ok (.arr xs.dropLast)
  | .str s => .ok (.str (String.mk s.toList.dropLast))
  | _ => .error .typeError

/-- Python iteration over a JSON value, as in a list comprehension. -/
def pyIterate : JVal → Except PyErr (List JVal)
  | .arr xs => .ok xs
  | .str s => .ok (s.toList.map fun c => .str (String.mk [c]))
  | _ => .error .typeError

namespace Constants

/-- Modelled from the spec: `pymata_aio/constants.py` (class `Constants`)
is imported by `pymata_iot.py` but its source is not included here; the
Firmata `INPUT` pin-mode number the spec's pin-mode command refers to. -/
def INPUT : Nat := 0x00

/-- Modelled from the spec: the Firmata `ANALOG` pin-mode number from the
missing `pymata_aio/constants.py`. -/
def ANALOG : Nat := 0x02

/-- Modelled from the spec: the play-tone selector from the missing
`pymata_aio/constants.py`. -/
def TONE_TONE : Nat := 0

/-- Modelled from the spec: the stop-tone selector from the missing
`pymata_aio/constants.py`. -/
def TONE_NO_TONE : Nat := 1

/-- Modelled from the spec: the I2C single-shot read mode from the missing
`pymata_aio/constants.py`. -/
def I2C_READ : Nat := 0x08

/-- Modelled from the spec: the I2C continuous read mode from the missing
`pymata_aio/constants.py`. -/
def I2C_READ_CONTINUOUSLY : Nat := 0x10

/-- Modelled from the spec: the explicit stop variant of the I2C read mode
(the spec's "stop" fallback) from the missing `pymata_aio/constants.py`. -/
def I2C_STOP_READING : Nat := 0x18

/-- Modelled from the spec: the I2C end-of-transmission mask from the
missing `pymata_aio/constants.py`. -/
def I2C_END_TX_MASK : Nat := 0x40

end Constants

/-- Days since 1970-01-01 shifted so that day 0 is 0000-03-01, the start of
a 400-year Gregorian era (the standard civil-from-days computation used by
`datetime`'s calendar arithmetic). -/
def zOfSecs (n : Int) : Int := n.ediv 86400 + 719468

/-- Day of the 400-year era, in `[0, 146096]`. -/
def doeOfSecs (n : Int) : Nat := ((zOfSecs n).emod 146097).toNat

/-- Year of the era, in `[0, 399]`, for a day of the era. -/
def yoeOfDoe (doe : Nat) : Nat :=
  (doe - doe / 1460 + doe / 36524 - doe / 146096) / 365

/-- Day of the March-based year for a day of the era. -/
def doyOfDoe (doe : Nat) : Nat :=
  doe - (365 * yoeOfDoe doe + yoeOfDoe doe / 4 - yoeOfDoe doe / 100)

/-- March-based month index, `0` = March. -/
def mpOfDoe (doe : Nat) : Nat := (5 * doyOfDoe doe + 2) / 153

/-- Calendar month (1-12) for a day of the era. -/
def monthOfDoe (doe : Nat) : Nat :=
  if mpOfDoe doe < 10 then mpOfDoe doe + 3 else mpOfDoe doe - 9

/-- Calendar day of month (1-31) for a day of the era. -/
def dayOfDoe (doe : Nat) : Nat :=
  doyOfDoe doe - (153 * mpOfDoe doe + 2) / 5 + 1

/-- Calendar year for a count of seconds since the epoch (January and
February belong to the next March-based year). -/
def civilYear (n : Int) : Int :=
  (zOfSecs n).ediv 146097 * 400 + (yoeOfDoe (doeOfSecs n) : Int) +
    (if monthOfDoe (doeOfSecs n) ≤ 2 then 1 else 0)

/-- Civil (proleptic Gregorian) date and time of day for a count of seconds
since 1970-01-01 00:00:00 (the instant `datetime.fromtimestamp` denotes):
`(year, month, day, hour, minute, second)`.  Floor division handles
instants before the epoch. -/
def civilOfSecs (n : Int) : Int × Nat × Nat × Nat × Nat × Nat :=
  (civilYear n, monthOfDoe (doeOfSecs n), dayOfDoe (doeOfSecs n),
   (n.emod 86400).toNat / 3600, (n.emod 86400).toNat / 60 % 60,
   (n.emod 86400).toNat % 60)

/-- The decimal digit character for `n % 10`. -/
def digitChar (n : Nat) : Char := Char.ofNat (48 + n % 10)

/-- Two-digit zero-padded rendering (`%d`, `%H`, `%M`, `%S`, `%m`). -/
def pad2 (n : Nat) : List Char := [digitChar (n / 10), digitChar n]

/-- Four-digit zero-padded rendering (`%Y`). -/
def pad4 (n : Nat) : List Char :=
  [digitChar (n / 1000), digitChar (n / 100), digitChar (n / 10), digitChar n]

/-- `strftime('%Y-%m-%d %H:%M:%S')` applied to a civil date and time. -/
def strftimeCivil (c : Int × Nat × Nat × Nat × Nat × Nat) : String :=
  match c with
  | (y, mo, d, h, mi, s) =>
    String.mk (pad4 y.toNat ++ '-' :: pad2 mo ++ '-' :: pad2 d ++ ' ' :: pad2 h
      ++ ':' :: pad2 mi ++ ':' :: pad2 s)

/-- `datetime.datetime.fromtimestamp(ts).strftime('%Y-%m-%d %H:%M:%S')`:
`tz` is the local civil-time offset from UTC in seconds; `datetime` raises
`ValueError` outside years 1..9999, and `fromtimestamp` raises `TypeError`
on a non-numeric timestamp. -/
def pyFromtimestampStrftime (tz : Int) (ts : JVal) : Except PyErr String :=
  match ts with
  | .int n =>
    if civilYear (n + tz) < 1 || 9999 < civilYear (n + tz) then .error .valueError
    else .ok (strftimeCivil (civilOfSecs (n + tz)))
  | _ => .error .typeError

/-- The fixed `YYYY-MM-DD HH:MM:SS` shape: 19 characters, digits and
separators in the fixed positions. -/
def tsShape (s : String) : Bool :=
  match s.toList with
  | [y1, y2, y3, y4, s1, m1, m2, s2, d1, d2, s3, h1, h2, s4, n1, n2, s5, e1, e2] =>
    y1.isDigit && y2.isDigit && y3.isDigit && y4.isDigit && s1 == '-' &&
    m1.isDigit && m2.isDigit && s2 == '-' && d1.isDigit && d2.isDigit &&
    s3 == ' ' && h1.isDigit && h2.isDigit && s4 == ':' && n1.isDigit &&
    n2.isDigit && s5 == ':' && e1.isDigit && e2.isDigit
  | _ => false

/-- The value-returning operations of the external `PymataCore` device
interface (`self.core`): what each awaited read-style operation resolves
to.  Operations invoked only for effect need no entry here; every
invocation, value-returning or not, is recorded as an `Effect.call`. -/
structure CoreEnv where
  analog_read : Int → JVal
  digital_read : Int → JVal
  encoder_read : Int → JVal
  get_analog_latch_data : Int → JVal
  get_digital_latch_data : Int → JVal
  get_analog_map : JVal
  get_capability_report : JVal
  get_firmware_version : JVal
  get_pin_state : Int → JVal
  get_protocol_version : JVal
  get_pymata_version : JVal
  i2c_read_data : Int → JVal
  sonar_data_retrieve : Int → JVal

/-- `PymataIOT.analog_read` (pymata_iot.py lines 115-129). -/
def analog_read (env : CoreEnv) (command : JVal) : Except PyErr (List Effect) := do
  let pin ← pyInt (← pyGetItem command 0)
  let data_val := env.analog_read pin
  pure [.call "analog_read" [.int pin] none,
        .send "analog_read_reply" (.arr [.int pin, data_val])]

/-- `PymataIOT.analog_write` (lines 131-142). -/
def analog_write (env : CoreEnv) (command : JVal) : Except PyErr (List Effect) := do
  let pin ← pyInt (← pyGetItem command 0)
  let value ← pyInt (← pyGetItem command 1)
  pure [.call "analog_write" [.int pin, .int value] none]

/-- `PymataIOT.digital_read` (lines 144-158). -/
def digital_read (env : CoreEnv) (command : JVal) : Except PyErr (List Effect) := do
  let pin ← pyInt (← pyGetItem command 0)
  let data_val := env.digital_read pin
  pure [.call "digital_read" [.int pin] none,
        .send "digital_read_reply" (.arr [.int pin, data_val])]

/-- `PymataIOT.digital_write` (lines 160-169). -/
def digital_write (env : CoreEnv) (command : JVal) : Except PyErr (List Effect) := do
  let pin ← pyInt (← pyGetItem command 0)
  let value ← pyInt (← pyGetItem command 1)
  pure [.call "digital_write" [.int pin, .int value] none]

/-- `PymataIOT.disable_analog_reporting` (lines 171-179). -/
def disable_analog_reporting (env : CoreEnv) (command : JVal) : Except PyErr (List Effect) := do
  let pin ← pyInt (← pyGetItem command 0)
  pure [.call "disable_analog_reporting" [.int pin] none]

/-- `PymataIOT.disable_digital_reporting` (lines 181-189). -/
def disable_digital_reporting (env : CoreEnv) (command : JVal) : Except PyErr (List Effect) := do
  let pin ← pyInt (← pyGetItem command 0)
  pure [.call "disable_digital_reporting" [.int pin] none]

/-- `PymataIOT.enable_analog_reporting` (lines 191-199).  Defined in the
source but, because of the `command_map` binding, never reachable from
dispatch. -/
def enable_analog_reporting (env : CoreEnv) (command : JVal) : Except PyErr (List Effect) := do
  let pin ← pyInt (← pyGetItem command 0)
  pure [.call "enable_analog_reporting" [.int pin] none]

/-- `PymataIOT.enable_digital_reporting` (lines 201-210).  Defined in the
source but, because of the `command_map` binding, never reachable from
dispatch. -/
def enable_digital_reporting (env : CoreEnv) (command : JVal) : Except PyErr (List Effect) := do
  let pin ← pyInt (← pyGetItem command 0)
  pure [.call "enable_digital_reporting" [.int pin] none]

/-- `PymataIOT.encoder_config` (lines 212-222). -/
def encoder_config (env : CoreEnv) (command : JVal) : Except PyErr (List Effect) := do
  let pin_a ← pyInt (← pyGetItem command 0)
  let pin_b ← pyInt (← pyGetItem command 1)
  pure [.call "encoder_config" [.int pin_a, .int pin_b] (some "encoder_callback")]

/-- `PymataIOT.encoder_read` (lines 224-236). -/
def encoder_read (env : CoreEnv) (command : JVal) : Except PyErr (List Effect) := do
  let pin ← pyInt (← pyGetItem command 0)
  let val := env.encoder_read pin
  pure [.call "encoder_read" [.int pin] none,
        .send "encoder_read_reply" (.arr [.int pin, val])]

/-- The `if data_val: data_val = data_val[0:-1]` step shared by
`get_analog_latch_data` and `get_digital_latch_data` (lines 251-252 and
305-306): a truthy latch record loses its final element, a falsy one is
passed through unchanged. -/
def slicedLatch (data_val : JVal) : Except PyErr JVal :=
  if pyTruthy data_val then pySlice0m1 data_val else pure data_val

/-- `PymataIOT.get_analog_latch_data` (lines 238-254): a truthy latch
record is sliced `[0:-1]` before being sent back after the pin. -/
def get_analog_latch_data (env : CoreEnv) (command : JVal) : Except PyErr (List Effect) := do
  let pin ← pyInt (← pyGetItem command 0)
  let data_val := env.get_analog_latch_data pin
  let data_val ← slicedLatch data_val
  pure [.call "get_analog_latch_data" [.int pin] none,
        .send "get_analog_latch_data_reply" (.arr [.int pin, data_val])]

/-- `PymataIOT.get_analog_map` (lines 256-271). -/
def get_analog_map (env : CoreEnv) : Except PyErr (List Effect) :=
  let value := env.get_analog_map
  if pyTruthy value then
    .ok [.call "get_analog_map" [] none, .send "analog_map_reply" value]
  else
    .ok [.call "get_analog_map" [] none, .send "analog_map_reply" (.str "None")]

/-- `PymataIOT.get_capability_report` (lines 273-290); the non-awaited
`asyncio.sleep(.1)` on line 285 has no effect. -/
def get_capability_report (env : CoreEnv) : Except PyErr (List Effect) :=
  let value := env.get_capability_report
  if pyTruthy value then
    .ok [.call "get_capability_report" [] none, .send "capability_report_reply" value]
  else
    .ok [.call "get_capability_report" [] none, .send "capability_report_reply" (.str "None")]

/-- `PymataIOT.get_digital_latch_data` (lines 292-308). -/
def get_digital_latch_data (env : CoreEnv) (command : JVal) : Except PyErr (List Effect) := do
  let pin ← pyInt (← pyGetItem command 0)
  let data_val := env.get_digital_latch_data pin
  let data_val ← slicedLatch data_val
  pure [.call "get_digital_latch_data" [.int pin] none,
        .send "get_digital_latch_data_reply" (.arr [.int pin, data_val])]

/-- `PymataIOT.get_firmware_version` (lines 310-327). -/
def get_firmware_version (env : CoreEnv) : Except PyErr (List Effect) :=
  let value := env.get_firmware_version
  if pyTruthy value then
    .ok [.call "get_firmware_version" [] none, .send "firmware_version_reply" value]
  else
    .ok [.call "get_firmware_version" [] none, .send "firmware_version_reply" (.str "Unknown")]

/-- `PymataIOT.get_pinstate_report` (lines 329-345), dispatched as
`"get_pin_state"`. -/
def get_pinstate_report (env : CoreEnv) (command : JVal) : Except PyErr (List Effect) := do
  let pin ← pyInt (← pyGetItem command 0)
  let value := env.get_pin_state pin
  if pyTruthy value then
    pure [.call "get_pin_state" [.int pin] none, .send "pin_state_reply" value]
  else
    pure [.call "get_pin_state" [.int pin] none, .send "pin_state_reply" (.str "Unknown")]

/-- `PymataIOT.get_protocol_version` (lines 347-361). -/
def get_protocol_version (env : CoreEnv) : Except PyErr (List Effect) :=
  let value := env.get_protocol_version
  if pyTruthy value then
    .ok [.call "get_protocol_version" [] none, .send "protocol_version_reply" value]
  else
    .ok [.call "get_protocol_version" [] none, .send "protocol_version_reply" (.str "Unknown")]

/-- `PymataIOT.get_pymata_version` (lines 363-377). -/
def get_pymata_version (env : CoreEnv) : Except PyErr (List Effect) :=
  let value := env.get_pymata_version
  if pyTruthy value then
    .ok [.call "get_pymata_version" [] none, .send "pymata_version_reply" value]
  else
    .ok [.call "get_pymata_version" [] none, .send "pymata_version_reply" (.str "Unknown")]

/-- `PymataIOT.i2c_config` (lines 379-389). -/
def i2c_config (env : CoreEnv) (command : JVal) : Except PyErr (List Effect) := do
  let delay ← pyInt (← pyGetItem command 0)
  pure [.call "i2c_config" [.int delay] none]

/-- `PymataIOT.i2c_read_data` (lines 391-403). -/
def i2c_read_data (env : CoreEnv) (command : JVal) : Except PyErr (List Effect) := do
  let address ← pyInt (← pyGetItem command 0)
  let data := env.i2c_read_data address
  pure [.call "i2c_read_data" [.int address] none,
        .send "i2c_read_data_reply" data]

/-- `PymataIOT.i2c_read_request` (lines 405-443): the read-type token
`command[3]` is decoded by the if/elif chain of lines 430-439, every
unrecognized token falling to `I2C_STOP_READING`; the awaited
`asyncio.sleep(1)` produces no effect. -/
def i2c_read_request (env : CoreEnv) (command : JVal) : Except PyErr (List Effect) := do
  let device_address ← pyInt (← pyGetItem command 0)
  let register ← pyInt (← pyGetItem command 1)
  let number_of_bytes ← pyInt (← pyGetItem command 2)
  let c3 ← pyGetItem command 3
  let read_type : Nat :=
    if pyEqStr c3 "0" then Constants.I2C_READ_CONTINUOUSLY
    else if pyEqStr c3 "1" then Constants.I2C_READ
    else if pyEqStr c3 "2" then Constants.I2C_READ ||| Constants.I2C_END_TX_MASK
    else if pyEqStr c3 "3" then Constants.I2C_READ_CONTINUOUSLY ||| Constants.I2C_END_TX_MASK
    else Constants.I2C_STOP_READING
  pure [.call "i2c_read_request"
    [.int device_address, .int register, .int number_of_bytes, .int (read_type : Int)]
    (some "i2c_read_request_callback")]

/-- `PymataIOT.i2c_write_request` (lines 445-455). -/
def i2c_write_request (env : CoreEnv) (command : JVal) : Except PyErr (List Effect) := do
  let device_address ← pyInt (← pyGetItem command 0)
  let params ← pyGetItem command 1
  let items ← pyIterate params
  let vals ← items.mapM pyInt
  pure [.call "i2c_write_request" [.int device_address, .arr (vals.map JVal.int)] none]

/-- `PymataIOT.play_tone` (lines 457-472). -/
def play_tone (env : CoreEnv) (command : JVal) : Except PyErr (List Effect) := do
  let pin ← pyInt (← pyGetItem command 0)
  let c1 ← pyGetItem command 1
  let tone_command : Nat :=
    if pyEqStr c1 "TONE_TONE" then Constants.TONE_TONE else Constants.TONE_NO_TONE
  let frequency ← pyInt (← pyGetItem command 2)
  let duration ← pyInt (← pyGetItem command 3)
  pure [.call "play_tone"
    [.int pin, .int (tone_command : Int), .int frequency, .int duration] none]

/-- `PymataIOT.set_analog_latch` (lines 474-485); the bound callback
`self.analog_latch_callback` is the fourth positional argument. -/
def set_analog_latch (env : CoreEnv) (command : JVal) : Except PyErr (List Effect) := do
  let pin ← pyInt (← pyGetItem command 0)
  let threshold_type ← pyInt (← pyGetItem command 1)
  let threshold_value ← pyInt (← pyGetItem command 2)
  pure [.call "set_analog_latch" [.int pin, .int threshold_type, .int threshold_value]
    (some "analog_latch_callback")]

/-- `PymataIOT.set_digital_latch` (lines 487-496). -/
def set_digital_latch (env : CoreEnv) (command : JVal) : Except PyErr (List Effect) := do
  let pin ← pyInt (← pyGetItem command 0)
  let threshold_value ← pyInt (← pyGetItem command 1)
  pure [.call "set_digital_latch" [.int pin, .int threshold_value]
    (some "digital_latch_callback")]

/-- `PymataIOT.set_pin_mode` (lines 498-515): the callback passed to the
core depends on the mode. -/
def set_pin_mode (env : CoreEnv) (command : JVal) : Except PyErr (List Effect) := do
  let pin ← pyInt (← pyGetItem command 0)
  let mode ← pyInt (← pyGetItem command 1)
  let cb : Option String :=
    if mode = (Constants.INPUT : Int) then some "digital_callback"
    else if mode = (Constants.ANALOG : Int) then some "analog_callback"
    else none
  pure [.call "set_pin_mode" [.int pin, .int mode] cb]

/-- `PymataIOT.set_sampling_interval` (lines 517-524). -/
def set_sampling_interval (env : CoreEnv) (command : JVal) : Except PyErr (List Effect) := do
  let sample_interval ← pyInt (← pyGetItem command 0)
  pure [.call "set_sampling_interval" [.int sample_interval] none]

/-- `PymataIOT.sonar_config` (lines 526-539); `self.sonar_callback` is the
third positional argument, between `echo` and `interval`. -/
def sonar_config (env : CoreEnv) (command : JVal) : Except PyErr (List Effect) := do
  let trigger ← pyInt (← pyGetItem command 0)
  let echo ← pyInt (← pyGetItem command 1)
  let interval ← pyInt (← pyGetItem command 2)
  let max_dist ← pyInt (← pyGetItem command 3)
  pure [.call "sonar_config" [.int trigger, .int echo, .int interval, .int max_dist]
    (some "sonar_callback")]

/-- `PymataIOT.sonar_read` (lines 541-553); the core operation awaited is
`sonar_data_retrieve`. -/
def sonar_read (env : CoreEnv) (command : JVal) : Except PyErr (List Effect) := do
  let pin ← pyInt (← pyGetItem command 0)
  let val := env.sonar_data_retrieve pin
  pure [.call "sonar_data_retrieve" [.int pin] none,
        .send "sonar_read_reply" (.arr [.int pin, val])]

/-- `PymataIOT.servo_config` (lines 555-565). -/
def servo_config (env : CoreEnv) (command : JVal) : Except PyErr (List Effect) := do
  let pin ← pyInt (← pyGetItem command 0)
  let min_pulse ← pyInt (← pyGetItem command 1)
  let max_pulse ← pyInt (← pyGetItem command 2)
  pure [.call "servo_config" [.int pin, .int min_pulse, .int max_pulse] none]

/-- `PymataIOT.stepper_config` (lines 567-581). -/
def stepper_config (env : CoreEnv) (command : JVal) : Except PyErr (List Effect) := do
  let steps_per_revs ← pyInt (← pyGetItem command 0)
  let pins ← pyGetItem command 1
  let pin1 ← pyInt (← pyGetItem pins 0)
  let pin2 ← pyInt (← pyGetItem pins 1)
  let pin3 ← pyInt (← pyGetItem pins 2)
  let pin4 ← pyInt (← pyGetItem pins 3)
  pure [.call "stepper_config"
    [.int steps_per_revs, .arr [.int pin1, .int pin2, .int pin3, .int pin4]] none]

/-- `PymataIOT.stepper_step` (lines 583-593). -/
def stepper_step (env : CoreEnv) (command : JVal) : Except PyErr (List Effect) := do
  let speed ← pyInt (← pyGetItem command 0)
  let num_steps ← pyInt (← pyGetItem command 1)
  pure [.call "stepper_step" [.int speed, .int num_steps] none]

/-- A dispatch-table entry: a handler method taking the `params` value, or
one taking no parameters. -/
inductive Handler where
  | unary (f : CoreEnv → JVal → Except PyErr (List Effect)) : Handler
  | nullary (f : CoreEnv → Except PyErr (List Effect)) : Handler

/-- `self.command_map` built by `PymataIOT.__init__` (lines 80-113), in
source order.  Note that, exactly as in the source, the keys
`"enable_analog_reporting"` and `"enable_digital_reporting"` are bound to
`self.disable_analog_reporting` and `self.disable_digital_reporting`. -/
def command_map : List (String × Handler) := [
  ("analog_read", .unary analog_read),
  ("analog_write", .unary analog_write),
  ("digital_read", .unary digital_read),
  ("digital_write", .unary digital_write),
  ("disable_analog_reporting", .unary disable_analog_reporting),
  ("disable_digital_reporting", .unary disable_digital_reporting),
  ("enable_analog_reporting", .unary disable_analog_reporting),
  ("enable_digital_reporting", .unary disable_digital_reporting),
  ("encoder_config", .unary encoder_config),
  ("encoder_read", .unary encoder_read),
  ("get_analog_latch_data", .unary get_analog_latch_data),
  ("get_analog_map", .nullary get_analog_map),
  ("get_capability_report", .nullary get_capability_report),
  ("get_digital_latch_data", .unary get_digital_latch_data),
  ("get_firmware_version", .nullary get_firmware_version),
  ("get_pin_state", .unary get_pinstate_report),
  ("get_protocol_version", .nullary get_protocol_version),
  ("get_pymata_version", .nullary get_pymata_version),
  ("i2c_config", .unary i2c_config),
  ("i2c_read_data", .unary i2c_read_data),
  ("i2c_read_request", .unary i2c_read_request),
  ("i2c_write_request", .unary i2c_write_request),
  ("play_tone", .unary play_tone),
  ("set_analog_latch", .unary set_analog_latch),
  ("set_digital_latch", .unary set_digital_latch),
  ("set_pin_mode", .unary set_pin_mode),
  ("set_sampling_interval", .unary set_sampling_interval),
  ("sonar_config", .unary sonar_config),
  ("sonar_read", .unary sonar_read),
  ("servo_config", .unary servo_config),
  ("stepper_config", .unary stepper_config),
  ("stepper_step", .unary stepper_step)]

/-- Calling a handler with or without the `params` argument (`cmd(params)`
versus `cmd()` on lines 639 and 641); Python raises `TypeError` when the
arity does not match the method's signature. -/
def invoke (h : Handler) (env : CoreEnv) (arg : Option JVal) : Except PyErr (List Effect) :=
  match h, arg with
  | .unary f, some v => f env v
  | .nullary f, none => f env
  | _, _ => .error .typeError

/-- The decoded inbound JSON object as consumed by `onMessage`: the results
of `cmd_dict.get("method")` and `cmd_dict.get("params")` (a missing key and
a JSON `null` value both yield Python `None`, modelled as `none`). -/
structure CmdDict where
  method : Option JVal
  params : Option JVal

/-- `params[0]` on line 638: Python subscripting of the raw `get` result;
`None` is not subscriptable. -/
def pySubscript0 : Option JVal → Except PyErr JVal
  | none => .error .typeError
  | some v => pyGetItem v 0

/-- The text branch of `PymataIOT.onMessage` (lines 632-641) after
`json.loads`: dispatch-table lookup, the `params[0] != "null"` sentinel
test, and the handler call.  A `method` value that is a JSON array raises
`TypeError` from the unhashable `in` test; any other unrecognized `method`
leaves the branch silently. -/
def processMessage (env : CoreEnv) (d : CmdDict) : Except PyErr (List Effect) :=
  match d.method with
  | some (.str name) =>
    match command_map.lookup name with
    | some cmd =>
      match pySubscript0 d.params with
      | .error e => .error e
      | .ok p0 =>
        if !pyEqStr p0 "null" then invoke cmd env d.params else invoke cmd env none
    | none => .ok []
  | some (.arr _) => .error .typeError
  | _ => .ok []

/-- `PymataIOT.onClose` (lines 595-606): a console diagnostic, then
`self.core.shutdown()` is awaited once. -/
def onClose : List Effect := [.call "shutdown" [] none]

/-- `PymataIOT.onOpen` (lines 643-651): a console diagnostic, then
`self.core.send_reset()` is awaited. -/
def onOpen : List Effect := [.call "send_reset" [] none]

/-- `PymataIOT.analog_callback` (lines 653-660). -/
def analog_callback (data : JVal) : Except PyErr (List Effect) := do
  let d0 ← pyGetItem data 0
  let d1 ← pyGetItem data 1
  pure [.send "analog_message_reply" (.arr [d0, d1])]

/-- `PymataIOT.analog_latch_callback` (lines 662-671): the raw timestamp
`data[2]` is rendered through
`datetime.datetime.fromtimestamp(ts).strftime('%Y-%m-%d %H:%M:%S')`; `tz`
is the host's local-time offset from UTC in seconds. -/
def analog_latch_callback (tz : Int) (data : JVal) : Except PyErr (List Effect) := do
  let ts ← pyGetItem data 2
  let st ← pyFromtimestampStrftime tz ts
  let d0 ← pyGetItem data 0
  let d1 ← pyGetItem data 1
  pure [.send "analog_latch_data_reply" (.arr [d0, d1, .str st])]

/-- `PymataIOT.digital_callback` (lines 673-681). -/
def digital_callback (data : JVal) : Except PyErr (List Effect) := do
  let d0 ← pyGetItem data 0
  let d1 ← pyGetItem data 1
  pure [.send "digital_message_reply" (.arr [d0, d1])]

/-- `PymataIOT.digital_latch_callback` (lines 683-692). -/
def digital_latch_callback (tz : Int) (data : JVal) : Except PyErr (List Effect) := do
  let ts ← pyGetItem data 2
  let st ← pyFromtimestampStrftime tz ts
  let d0 ← pyGetItem data 0
  let d1 ← pyGetItem data 1
  pure [.send "digital_latch_data_reply" (.arr [d0, d1, .str st])]

/-- `PymataIOT.encoder_callback` (lines 694-701). -/
def encoder_callback (data : JVal) : Except PyErr (List Effect) :=
  .ok [.send "encoder_data_reply" data]

/-- `PymataIOT.i2c_read_request_callback` (lines 703-710). -/
def i2c_read_request_callback (data : JVal) : Except PyErr (List Effect) :=
  .ok [.send "i2c_read_request_reply" data]

/-- `PymataIOT.i2c_read_data_callback` (lines 712-719). -/
def i2c_read_data_callback (data : JVal) : Except PyErr (List Effect) :=
  .ok [.send "i2c_read_data_reply" data]

/-- `PymataIOT.sonar_callback` (lines 721-729). -/
def sonar_callback (data : JVal) : Except PyErr (List Effect) :=
  .ok [.send "sonar_data_reply" data]

/-- A device environment in which every awaited value-returning operation
resolves to JSON null (the device answers nothing). -/
def envNull : CoreEnv where
  analog_read := fun _ => .null
  digital_read := fun _ => .null
  encoder_read := fun _ => .null
  get_analog_latch_data := fun _ => .null
  get_digital_latch_data := fun _ => .null
  get_analog_map := .null
  get_capability_report := .null
  get_firmware_version := .null
  get_pin_state := fun _ => .null
  get_protocol_version := .null
  get_pymata_version := .null
  i2c_read_data := fun _ => .null
  sonar_data_retrieve := fun _ => .null

theorem yoeOfDoe_le (doe : Nat) (h : doe < 146097) : yoeOfDoe doe ≤ 399 := by
  unfold yoeOfDoe; omega

theorem month_le_two_doe (doe : Nat) (h : doe < 146097)
    (hm : monthOfDoe doe ≤ 2) (hy : yoeOfDoe doe = 399) : 146037 ≤ doe := by
  unfold monthOfDoe mpOfDoe doyOfDoe at hm
  rw [hy] at hm
  split at hm <;> omega

/-- Within the representable window the civil year stays in
`datetime`'s supported range 1..9999, so no `ValueError` is raised. -/
theorem civilYear_bounds (n : Int) (h0 : 0 ≤ n) (h1 : n < 253402300800) :
    1 ≤ civilYear n ∧ civilYear n ≤ 9999 := by
  have hA : 86400 * (n.ediv 86400) + n.emod 86400 = n := Int.ediv_add_emod _ _
  have hA1 : 0 ≤ n.emod 86400 := Int.emod_nonneg _ (by norm_num)
  have hA2 : n.emod 86400 < 86400 := Int.emod_lt_of_pos _ (by norm_num)
  have hzlo : 719468 ≤ zOfSecs n := by unfold zOfSecs; omega
  have hzhi : zOfSecs n ≤ 3652364 := by unfold zOfSecs; omega
  have hmodlo : 0 ≤ (zOfSecs n).emod 146097 := Int.emod_nonneg _ (by norm_num)
  have hmodhi : (zOfSecs n).emod 146097 < 146097 := Int.emod_lt_of_pos _ (by norm_num)
  have hdiv : 146097 * ((zOfSecs n).ediv 146097) + (zOfSecs n).emod 146097 = zOfSecs n :=
    Int.ediv_add_emod _ _
  have hdoe : (doeOfSecs n : Int) = (zOfSecs n).emod 146097 := by
    unfold doeOfSecs; omega
  have hdoeLt : doeOfSecs n < 146097 := by omega
  have hyoe : yoeOfDoe (doeOfSecs n) ≤ 399 := yoeOfDoe_le _ hdoeLt
  unfold civilYear
  by_cases hm : monthOfDoe (doeOfSecs n) ≤ 2
  · rw [if_pos hm]
    by_cases hy : yoeOfDoe (doeOfSecs n) = 399
    · have h37 := month_le_two_doe _ hdoeLt hm hy
      rw [hy]
      omega
    · have h398 : yoeOfDoe (doeOfSecs n) ≤ 398 := by omega
      omega
  · rw [if_neg hm]
    omega

theorem isDigit_digitChar (n : Nat) : (digitChar n).isDigit = true := by
  have h : n % 10 < 10 := Nat.mod_lt _ (by norm_num)
  unfold digitChar
  generalize hm : n % 10 = m at h ⊢
  interval_cases m <;> rfl

/-- Every rendered civil instant has the fixed 19-character
`YYYY-MM-DD HH:MM:SS` shape. -/
theorem tsShape_strftimeCivil (c : Int × Nat × Nat × Nat × Nat × Nat) :
    tsShape (strftimeCivil c) = true := by
  obtain ⟨y, mo, d, h, mi, s⟩ := c
  simp [tsShape, strftimeCivil, pad4, pad2, isDigit_digitChar]

/-- In the representable window the timestamp rendering succeeds and
produces the fixed-format civil string. -/
theorem pyFrom_ok (tz ts : Int) (h0 : 0 ≤ ts + tz) (h1 : ts + tz < 253402300800) :
    pyFromtimestampStrftime tz (.int ts) = .ok (strftimeCivil (civilOfSecs (ts + tz))) := by
  have hy := civilYear_bounds (ts + tz) h0 h1
  have hc : (decide (civilYear (ts + tz) < 1) || decide (9999 < civilYear (ts + tz))) = false := by
    simp only [Bool.or_eq_false_iff, decide_eq_false_iff_not]
    omega
  rw [show pyFromtimestampStrftime tz (.int ts) =
      (if (decide (civilYear (ts + tz) < 1) || decide (9999 < civilYear (ts + tz))) = true then
        Except.error PyErr.valueError
      else Except.ok (strftimeCivil (civilOfSecs (ts + tz)))) from rfl, hc]
  exact if_neg Bool.false_ne_true

/-- C5: for every latch-type event delivered with payload
`(pin, value, numeric timestamp)` whose instant is representable
(nonnegative local time before year 10000), each latch callback emits
exactly one Notification whose third `params` field is the local-time
rendering of that timestamp in the fixed `YYYY-MM-DD HH:MM:SS` format
(a formatted string, not the raw numeric timestamp). -/
theorem claim_C5 (tz ts : Int) (p v : JVal)
    (h0 : 0 ≤ ts + tz) (h1 : ts + tz < 253402300800) :
    analog_latch_callback tz (.arr [p, v, .int ts]) =
      .ok [.send "analog_latch_data_reply"
        (.arr [p, v, .str (strftimeCivil (civilOfSecs (ts + tz)))])] ∧
    digital_latch_callback tz (.arr [p, v, .int ts]) =
      .ok [.send "digital_latch_data_reply"
        (.arr [p, v, .str (strftimeCivil (civilOfSecs (ts + tz)))])] ∧
    tsShape (strftimeCivil (civilOfSecs (ts + tz))) = true := by
  have h2 := pyFrom_ok tz ts h0 h1
  refine ⟨?_, ?_, tsShape_strftimeCivil _⟩
  · rw [show analog_latch_callback tz (.arr [p, v, .int ts]) =
        Except.bind (pyFromtimestampStrftime tz (.int ts)) (fun st =>
          Except.ok [Effect.send "analog_latch_data_reply" (.arr [p, v, .str st])]) from rfl,
      h2]
    rfl
  · rw [show digital_latch_callback tz (.arr [p, v, .int ts]) =
        Except.bind (pyFromtimestampStrftime tz (.int ts)) (fun st =>
          Except.ok [Effect.send "digital_latch_data_reply" (.arr [p, v, .str st])]) from rfl,
      h2]
    rfl

/-- C5 witness: a concrete latch event at epoch second 1438000000 (UTC)
renders as `2015-07-27 12:26:40`. -/
theorem claim_C5_witness :
    analog_latch_callback 0 (.arr [.int 3, .int 777, .int 1438000000]) =
      .ok [.send "analog_latch_data_reply"
        (.arr [.int 3, .int 777, .str "2015-07-27 12:26:40"])] ∧
    digital_latch_callback 0 (.arr [.int 3, .int 777, .int 1438000000]) =
      .ok [.send "digital_latch_data_reply"
        (.arr [.int 3, .int 777, .str "2015-07-27 12:26:40"])] ∧
    tsShape "2015-07-27 12:26:40" = true :=
  claim_C5 0 1438000000 (.int 3) (.int 777) (by decide) (by decide)

/-- C1: dispatching well-formed `enable_analog_reporting` /
`enable_digital_reporting` Commands does NOT invoke the like-named core
operations: the `command_map` binds both enable keys to the disable
handlers, so the dispatched effect is `disable_analog_reporting` /
`disable_digital_reporting`; the source's own `enable_*` handler methods
(which would invoke the correct operations, last two conjuncts) are left
unreachable.  This evaluates the code at the claim's failing input. -/
theorem claim_C1_enable_misbound :
    processMessage envNull ⟨some (.str "enable_analog_reporting"), some (.arr [.str "2"])⟩ =
      .ok [.call "disable_analog_reporting" [.int 2] none] ∧
    processMessage envNull ⟨some (.str "enable_digital_reporting"), some (.arr [.str "2"])⟩ =
      .ok [.call "disable_digital_reporting" [.int 2] none] ∧
    enable_analog_reporting envNull (.arr [.str "2"]) =
      .ok [.call "enable_analog_reporting" [.int 2] none] ∧
    enable_digital_reporting envNull (.arr [.str "2"]) =
      .ok [.call "enable_digital_reporting" [.int 2] none] :=
  ⟨rfl, rfl, rfl, rfl⟩

/-- C2 counterexample: `analog_read` is a query-class command, yet when the
device resolves the read to an absent value (JSON null, falsy) the Reply
params are the raw `[2, null]`, not the `"Unknown"`/`"None"` sentinel the
claim asserts for every query-class command. -/
theorem claim_C2_counterexample :
    processMessage envNull ⟨some (.str "analog_read"), some (.arr [.str "2"])⟩ =
      .ok [.call "analog_read" [.int 2] none,
           .send "analog_read_reply" (.arr [.int 2, .null])] ∧
    JVal.arr [.int 2, .null] ≠ .str "Unknown" ∧
    JVal.arr [.int 2, .null] ≠ .str "None" :=
  ⟨rfl, fun h => JVal.noConfusion h, fun h => JVal.noConfusion h⟩

/-- C2 amended: the six version/map/capability/pin-state queries substitute
an explicit sentinel string as the whole `params` when the awaited value is
falsy — `"Unknown"` for firmware/protocol/pymata version and pin state,
`"None"` for analog map and capability report — and still send exactly one
Reply; a polling read such as `analog_read` also sends exactly one Reply
but carries the raw value through. -/
theorem claim_C2 (env : CoreEnv) (p : Int)
    (h1 : pyTruthy env.get_firmware_version = false)
    (h2 : pyTruthy env.get_protocol_version = false)
    (h3 : pyTruthy env.get_pymata_version = false)
    (h4 : pyTruthy env.get_analog_map = false)
    (h5 : pyTruthy env.get_capability_report = false)
    (h6 : pyTruthy (env.get_pin_state p) = false) :
    get_firmware_version env =
      .ok [.call "get_firmware_version" [] none,
           .send "firmware_version_reply" (.str "Unknown")] ∧
    get_protocol_version env =
      .ok [.call "get_protocol_version" [] none,
           .send "protocol_version_reply" (.str "Unknown")] ∧
    get_pymata_version env =
      .ok [.call "get_pymata_version" [] none,
           .send "pymata_version_reply" (.str "Unknown")] ∧
    get_analog_map env =
      .ok [.call "get_analog_map" [] none, .send "analog_map_reply" (.str "None")] ∧
    get_capability_report env =
      .ok [.call "get_capability_report" [] none,
           .send "capability_report_reply" (.str "None")] ∧
    get_pinstate_report env (.arr [.int p]) =
      .ok [.call "get_pin_state" [.int p] none, .send "pin_state_reply" (.str "Unknown")] ∧
    analog_read env (.arr [.int p]) =
      .ok [.call "analog_read" [.int p] none,
           .send "analog_read_reply" (.arr [.int p, env.analog_read p])] := by
  refine ⟨?_, ?_, ?_, ?_, ?_, ?_, rfl⟩
  · simp only [get_firmware_version, h1, Bool.false_eq_true, if_false]
  · simp only [get_protocol_version, h2, Bool.false_eq_true, if_false]
  · simp only [get_pymata_version, h3, Bool.false_eq_true, if_false]
  · simp only [get_analog_map, h4, Bool.false_eq_true, if_false]
  · simp only [get_capability_report, h5, Bool.false_eq_true, if_false]
  · rw [show get_pinstate_report env (.arr [.int p]) =
        (if pyTruthy (env.get_pin_state p) = true then
          Except.ok [Effect.call "get_pin_state" [.int p] none,
            Effect.send "pin_state_reply" (env.get_pin_state p)]
        else
          Except.ok [Effect.call "get_pin_state" [.int p] none,
            Effect.send "pin_state_reply" (.str "Unknown")]) from rfl]
    rw [if_neg (by rw [h6]; exact Bool.false_ne_true)]

/-- C2 witness: against a device environment answering null everywhere. -/
theorem claim_C2_witness :
    get_firmware_version envNull =
      .ok [.call "get_firmware_version" [] none,
           .send "firmware_version_reply" (.str "Unknown")] ∧
    get_protocol_version envNull =
      .ok [.call "get_protocol_version" [] none,
           .send "protocol_version_reply" (.str "Unknown")] ∧
    get_pymata_version envNull =
      .ok [.call "get_pymata_version" [] none,
           .send "pymata_version_reply" (.str "Unknown")] ∧
    get_analog_map envNull =
      .ok [.call "get_analog_map" [] none, .send "analog_map_reply" (.str "None")] ∧
    get_capability_report envNull =
      .ok [.call "get_capability_report" [] none,
           .send "capability_report_reply" (.str "None")] ∧
    get_pinstate_report envNull (.arr [.int 0]) =
      .ok [.call "get_pin_state" [.int 0] none, .send "pin_state_reply" (.str "Unknown")] ∧
    analog_read envNull (.arr [.int 0]) =
      .ok [.call "analog_read" [.int 0] none,
           .send "analog_read_reply" (.arr [.int 0, .null])] :=
  claim_C2 envNull 0 rfl rfl rfl rfl rfl rfl

/-- C3: an inbound text message whose method name is absent from the
dispatch table produces zero effects — no outbound message, no device
interface invocation — and raises nothing (the connection stays open). -/
theorem claim_C3 (env : CoreEnv) (name : String) (params : Option JVal)
    (h : command_map.lookup name = none) :
    processMessage env ⟨some (.str name), params⟩ = .ok [] := by
  have e : processMessage env ⟨some (.str name), params⟩ =
      (match command_map.lookup name with
       | some cmd =>
         match pySubscript0 params with
         | .error e => .error e
         | .ok p0 =>
           if !pyEqStr p0 "null" then invoke cmd env params else invoke cmd env none
       | none => (Except.ok [] : Except PyErr (List Effect))) := rfl
  rw [e, h]

/-- C3 witness: an unrecognized method name. -/
theorem claim_C3_witness :
    processMessage envNull ⟨some (.str "bogus"), some (.arr [.str "1"])⟩ = .ok [] :=
  claim_C3 envNull "bogus" (some (.arr [.str "1"])) rfl

/-- C4: the fourth positional `i2c_read_request` parameter is decoded from
the closed token set `{"0","1","2","3"}` (conjuncts 2-5 give the decoded
modes), and for every token outside that set — wrong string, number, null,
list, anything — the read type passed to the device interface is the
explicit stop variant `I2C_STOP_READING` rather than an error. -/
theorem claim_C4 (env : CoreEnv) (a r nb : Int) (t : JVal)
    (h0 : pyEqStr t "0" = false) (h1 : pyEqStr t "1" = false)
    (h2 : pyEqStr t "2" = false) (h3 : pyEqStr t "3" = false) :
    i2c_read_request env (.arr [.int a, .int r, .int nb, t]) =
      .ok [.call "i2c_read_request"
        [.int a, .int r, .int nb, .int (Constants.I2C_STOP_READING : Int)]
        (some "i2c_read_request_callback")] ∧
    i2c_read_request env (.arr [.int a, .int r, .int nb, .str "0"]) =
      .ok [.call "i2c_read_request"
        [.int a, .int r, .int nb, .int (Constants.I2C_READ_CONTINUOUSLY : Int)]
        (some "i2c_read_request_callback")] ∧
    i2c_read_request env (.arr [.int a, .int r, .int nb, .str "1"]) =
      .ok [.call "i2c_read_request"
        [.int a, .int r, .int nb, .int (Constants.I2C_READ : Int)]
        (some "i2c_read_request_callback")] ∧
    i2c_read_request env (.arr [.int a, .int r, .int nb, .str "2"]) =
      .ok [.call "i2c_read_request"
        [.int a, .int r, .int nb,
         .int ((Constants.I2C_READ ||| Constants.I2C_END_TX_MASK : Nat) : Int)]
        (some "i2c_read_request_callback")] ∧
    i2c_read_request env (.arr [.int a, .int r, .int nb, .str "3"]) =
      .ok [.call "i2c_read_request"
        [.int a, .int r, .int nb,
         .int ((Constants.I2C_READ_CONTINUOUSLY ||| Constants.I2C_END_TX_MASK : Nat) : Int)]
        (some "i2c_read_request_callback")] := by
  refine ⟨?_, rfl, rfl, rfl, rfl⟩
  rw [show i2c_read_request env (.arr [.int a, .int r, .int nb, t]) =
      Except.ok [Effect.call "i2c_read_request" [.int a, .int r, .int nb,
        .int (((if pyEqStr t "0" then Constants.I2C_READ_CONTINUOUSLY
          else if pyEqStr t "1" then Constants.I2C_READ
          else if pyEqStr t "2" then Constants.I2C_READ ||| Constants.I2C_END_TX_MASK
          else if pyEqStr t "3" then
            Constants.I2C_READ_CONTINUOUSLY ||| Constants.I2C_END_TX_MASK
          else Constants.I2C_STOP_READING) : Nat) : Int)]
        (some "i2c_read_request_callback")] from rfl]
  simp only [h0, h1, h2, h3, Bool.false_eq_true, if_false]

/-- C4 witness: the out-of-set token `"4"` (which the source docstring
assigns to stop reading) and the four in-set tokens. -/
theorem claim_C4_witness :
    i2c_read_request envNull (.arr [.int 1, .int 7, .int 3, .str "4"]) =
      .ok [.call "i2c_read_request"
        [.int 1, .int 7, .int 3, .int (Constants.I2C_STOP_READING : Int)]
        (some "i2c_read_request_callback")] ∧
    i2c_read_request envNull (.arr [.int 1, .int 7, .int 3, .str "0"]) =
      .ok [.call "i2c_read_request"
        [.int 1, .int 7, .int 3, .int (Constants.I2C_READ_CONTINUOUSLY : Int)]
        (some "i2c_read_request_callback")] ∧
    i2c_read_request envNull (.arr [.int 1, .int 7, .int 3, .str "1"]) =
      .ok [.call "i2c_read_request"
        [.int 1, .int 7, .int 3, .int (Constants.I2C_READ : Int)]
        (some "i2c_read_request_callback")] ∧
    i2c_read_request envNull (.arr [.int 1, .int 7, .int 3, .str "2"]) =
      .ok [.call "i2c_read_request"
        [.int 1, .int 7, .int 3,
         .int ((Constants.I2C_READ ||| Constants.I2C_END_TX_MASK : Nat) : Int)]
        (some "i2c_read_request_callback")] ∧
    i2c_read_request envNull (.arr [.int 1, .int 7, .int 3, .str "3"]) =
      .ok [.call "i2c_read_request"
        [.int 1, .int 7, .int 3,
         .int ((Constants.I2C_READ_CONTINUOUSLY ||| Constants.I2C_END_TX_MASK : Nat) : Int)]
        (some "i2c_read_request_callback")] :=
  claim_C4 envNull 1 7 3 (.str "4") rfl rfl rfl rfl

/-- C6 counterexample: the sentinel test reads only `params[0]`, so a
params sequence `["null", 5]` — which is not the single-element sentinel —
is still dispatched with zero arguments (conjunct 1: the nullary handler
runs and replies), whereas invoking the handler with that params sequence
as its argument, as the claim prescribes for every non-sentinel params,
would raise `TypeError` (conjunct 2). -/
theorem claim_C6_counterexample :
    processMessage envNull
        ⟨some (.str "get_firmware_version"), some (.arr [.str "null", .int 5])⟩ =
      .ok [.call "get_firmware_version" [] none,
           .send "firmware_version_reply" (.str "Unknown")] ∧
    invoke (Handler.nullary get_firmware_version) envNull
        (some (.arr [.str "null", .int 5])) = .error .typeError :=
  ⟨rfl, rfl⟩

/-- C6 amended: for a recognized command, the handler is invoked with zero
arguments whenever the FIRST element of the params sequence equals the
string `"null"` (in particular for the single-element sentinel
`["null"]`), and with the whole params sequence as its argument otherwise;
thus `get_firmware_version` dispatched with `["null"]` runs the
zero-argument handler (third conjunct). -/
theorem claim_C6 (env : CoreEnv) (name : String) (h : Handler) (x : JVal) (rest : List JVal)
    (hl : command_map.lookup name = some h) :
    (pyEqStr x "null" = true →
      processMessage env ⟨some (.str name), some (.arr (x :: rest))⟩ = invoke h env none) ∧
    (pyEqStr x "null" = false →
      processMessage env ⟨some (.str name), some (.arr (x :: rest))⟩ =
        invoke h env (some (.arr (x :: rest)))) ∧
    processMessage env ⟨some (.str "get_firmware_version"), some (.arr [.str "null"])⟩ =
      get_firmware_version env := by
  have e : processMessage env ⟨some (.str name), some (.arr (x :: rest))⟩ =
      (match command_map.lookup name with
       | some cmd =>
         if !pyEqStr x "null" then invoke cmd env (some (.arr (x :: rest)))
         else invoke cmd env none
       | none => (Except.ok [] : Except PyErr (List Effect))) := rfl
  refine ⟨fun hx => ?_, fun hx => ?_, rfl⟩
  · rw [e, hl]
    simp only [hx, Bool.not_true, Bool.false_eq_true, if_false]
  · rw [e, hl]
    simp only [hx, Bool.not_false, if_true]

/-- C6 witness: a recognized unary command with a non-sentinel first
element is invoked with its params, and the sentinel dispatch of
`get_firmware_version` runs the zero-argument handler. -/
theorem claim_C6_witness :
    (pyEqStr (.str "2") "null" = true →
      processMessage envNull ⟨some (.str "analog_read"), some (.arr [.str "2"])⟩ =
        invoke (Handler.unary analog_read) envNull none) ∧
    (pyEqStr (.str "2") "null" = false →
      processMessage envNull ⟨some (.str "analog_read"), some (.arr [.str "2"])⟩ =
        invoke (Handler.unary analog_read) envNull (some (.arr [.str "2"]))) ∧
    processMessage envNull
        ⟨some (.str "get_firmware_version"), some (.arr [.str "null"])⟩ =
      get_firmware_version envNull :=
  claim_C6 envNull "analog_read" (Handler.unary analog_read) (.str "2") [] rfl

/-- C7: dispatching `{method: "analog_read", params: ["2"]}` when the
device interface resolves the read to 512 yields exactly one device
invocation, `analog_read(2)`, and exactly one Reply
`{"method": "analog_read_reply", "params": [2, 512]}` — the pin echoed
back as the coerced integer 2 followed by the device value. -/
theorem claim_C7 (env : CoreEnv) (h : env.analog_read 2 = .int 512) :
    processMessage env ⟨some (.str "analog_read"), some (.arr [.str "2"])⟩ =
      .ok [.call "analog_read" [.int 2] none,
           .send "analog_read_reply" (.arr [.int 2, .int 512])] := by
  rw [show processMessage env ⟨some (.str "analog_read"), some (.arr [.str "2"])⟩ =
      Except.ok [Effect.call "analog_read" [.int 2] none,
        Effect.send "analog_read_reply" (.arr [.int 2, env.analog_read 2])] from rfl, h]

/-- A device environment whose analog pin 2 reads 512. -/
def env512 : CoreEnv :=
  { envNull with analog_read := fun p => if p = 2 then .int 512 else .null }

/-- C7 witness. -/
theorem claim_C7_witness :
    processMessage env512 ⟨some (.str "analog_read"), some (.arr [.str "2"])⟩ =
      .ok [.call "analog_read" [.int 2] none,
           .send "analog_read_reply" (.arr [.int 2, .int 512])] :=
  claim_C7 env512 rfl

/-- C9: for `get_analog_latch_data` and `get_digital_latch_data`, a
non-empty latch record is sent back as the pin followed by the record with
its final element removed, a falsy record is passed through unchanged, and
exactly one Reply goes out in both cases. -/
theorem claim_C9 (env : CoreEnv) (p q p2 q2 : Int) (xs xs2 : List JVal) (v v2 : JVal)
    (ha : env.get_analog_latch_data p = .arr xs) (hxs : xs ≠ [])
    (hv : pyTruthy v = false) (hb : env.get_analog_latch_data q = v)
    (hc : env.get_digital_latch_data p2 = .arr xs2) (hxs2 : xs2 ≠ [])
    (hv2 : pyTruthy v2 = false) (hd : env.get_digital_latch_data q2 = v2) :
    get_analog_latch_data env (.arr [.int p]) =
      .ok [.call "get_analog_latch_data" [.int p] none,
           .send "get_analog_latch_data_reply" (.arr [.int p, .arr xs.dropLast])] ∧
    get_analog_latch_data env (.arr [.int q]) =
      .ok [.call "get_analog_latch_data" [.int q] none,
           .send "get_analog_latch_data_reply" (.arr [.int q, v])] ∧
    get_digital_latch_data env (.arr [.int p2]) =
      .ok [.call "get_digital_latch_data" [.int p2] none,
           .send "get_digital_latch_data_reply" (.arr [.int p2, .arr xs2.dropLast])] ∧
    get_digital_latch_data env (.arr [.int q2]) =
      .ok [.call "get_digital_latch_data" [.int q2] none,
           .send "get_digital_latch_data_reply" (.arr [.int q2, v2])] := by
  obtain ⟨a, as, rfl⟩ : ∃ a as, xs = a :: as := by
    cases xs with
    | nil => exact absurd rfl hxs
    | cons a as => exact ⟨a, as, rfl⟩
  obtain ⟨b, bs, rfl⟩ : ∃ b bs, xs2 = b :: bs := by
    cases xs2 with
    | nil => exact absurd rfl hxs2
    | cons b bs => exact ⟨b, bs, rfl⟩
  have hsv : slicedLatch v = pure v := by
    unfold slicedLatch
    rw [if_neg (by rw [hv]; exact Bool.false_ne_true)]
  have hsv2 : slicedLatch v2 = pure v2 := by
    unfold slicedLatch
    rw [if_neg (by rw [hv2]; exact Bool.false_ne_true)]
  refine ⟨?_, ?_, ?_, ?_⟩
  · rw [show get_analog_latch_data env (.arr [.int p]) =
        Except.bind (slicedLatch (env.get_analog_latch_data p)) (fun dv =>
          Except.ok [Effect.call "get_analog_latch_data" [.int p] none,
            Effect.send "get_analog_latch_data_reply" (.arr [.int p, dv])]) from rfl,
      ha]
    rfl
  · rw [show get_analog_latch_data env (.arr [.int q]) =
        Except.bind (slicedLatch (env.get_analog_latch_data q)) (fun dv =>
          Except.ok [Effect.call "get_analog_latch_data" [.int q] none,
            Effect.send "get_analog_latch_data_reply" (.arr [.int q, dv])]) from rfl,
      hb, hsv]
    rfl
  · rw [show get_digital_latch_data env (.arr [.int p2]) =
        Except.bind (slicedLatch (env.get_digital_latch_data p2)) (fun dv =>
          Except.ok [Effect.call "get_digital_latch_data" [.int p2] none,
            Effect.send "get_digital_latch_data_reply" (.arr [.int p2, dv])]) from rfl,
      hc]
    rfl
  · rw [show get_digital_latch_data env (.arr [.int q2]) =
        Except.bind (slicedLatch (env.get_digital_latch_data q2)) (fun dv =>
          Except.ok [Effect.call "get_digital_latch_data" [.int q2] none,
            Effect.send "get_digital_latch_data_reply" (.arr [.int q2, dv])]) from rfl,
      hd, hsv2]
    rfl

/-- A device environment with one populated analog latch record (pin 1)
and one populated digital latch record (pin 5); other pins answer null. -/
def envLatch : CoreEnv :=
  { envNull with
    get_analog_latch_data := fun p =>
      if p = 1 then .arr [.int 1, .int 1, .int 3, .int 1013, .int 1438000000] else .null,
    get_digital_latch_data := fun p =>
      if p = 5 then .arr [.int 5, .int 1, .int 1, .int 1438000001] else .null }

/-- C9 witness: populated records lose their trailing element, absent
records pass through as null, and each case sends one Reply. -/
theorem claim_C9_witness :
    get_analog_latch_data envLatch (.arr [.int 1]) =
      .ok [.call "get_analog_latch_data" [.int 1] none,
           .send "get_analog_latch_data_reply"
             (.arr [.int 1, .arr [.int 1, .int 1, .int 3, .int 1013]])] ∧
    get_analog_latch_data envLatch (.arr [.int 0]) =
      .ok [.call "get_analog_latch_data" [.int 0] none,
           .send "get_analog_latch_data_reply" (.arr [.int 0, .null])] ∧
    get_digital_latch_data envLatch (.arr [.int 5]) =
      .ok [.call "get_digital_latch_data" [.int 5] none,
           .send "get_digital_latch_data_reply"
             (.arr [.int 5, .arr [.int 5, .int 1, .int 1]])] ∧
    get_digital_latch_data envLatch (.arr [.int 0]) =
      .ok [.call "get_digital_latch_data" [.int 0] none,
           .send "get_digital_latch_data_reply" (.arr [.int 0, .null])] :=
  claim_C9 envLatch 1 0 5 0
    [.int 1, .int 1, .int 3, .int 1013, .int 1438000000]
    [.int 5, .int 1, .int 1, .int 1438000001] .null .null
    rfl (fun hh => List.noConfusion hh) rfl rfl
    rfl (fun hh => List.noConfusion hh) rfl rfl

/-- C10: for every recognized method, `onMessage` reads `params[0]` before
dispatch with no guard and no fallback: a missing (or null) params field
raises `TypeError`, an empty params sequence raises `IndexError`, and in
neither case is the command silently ignored (an `Except.ok` effect
list). -/
theorem claim_C10 (env : CoreEnv) (name : String) (h : Handler)
    (hl : command_map.lookup name = some h) :
    processMessage env ⟨some (.str name), none⟩ = .error .typeError ∧
    processMessage env ⟨some (.str name), some (.arr [])⟩ = .error .indexError ∧
    ∀ effs : List Effect, processMessage env ⟨some (.str name), none⟩ ≠ .ok effs := by
  have e1 : processMessage env ⟨some (.str name), none⟩ =
      (match command_map.lookup name with
       | some cmd =>
         match pySubscript0 none with
         | .error e => .error e
         | .ok p0 =>
           if !pyEqStr p0 "null" then invoke cmd env none else invoke cmd env none
       | none => (Except.ok [] : Except PyErr (List Effect))) := rfl
  have e2 : processMessage env ⟨some (.str name), some (.arr [])⟩ =
      (match command_map.lookup name with
       | some cmd =>
         match pySubscript0 (some (.arr [])) with
         | .error e => .error e
         | .ok p0 =>
           if !pyEqStr p0 "null" then invoke cmd env (some (.arr []))
           else invoke cmd env none
       | none => (Except.ok [] : Except PyErr (List Effect))) := rfl
  refine ⟨?_, ?_, ?_⟩
  · rw [e1, hl]
    rfl
  · rw [e2, hl]
    rfl
  · intro effs hcontra
    rw [e1, hl] at hcontra
    exact Except.noConfusion hcontra

/-- C10 witness: `analog_read` with missing and with empty params. -/
theorem claim_C10_witness :
    processMessage envNull ⟨some (.str "analog_read"), none⟩ = .error .typeError ∧
    processMessage envNull ⟨some (.str "analog_read"), some (.arr [])⟩ =
      .error .indexError ∧
    ∀ effs : List Effect,
      processMessage envNull ⟨some (.str "analog_read"), none⟩ ≠ .ok effs :=
  claim_C10 envNull "analog_read" (Handler.unary analog_read) rfl

/-- The number of `shutdown` invocations recorded in an effect list. -/
def countShutdown (effs : List Effect) : Nat :=
  (effs.filter fun e =>
    match e with
    | .call "shutdown" _ _ => true
    | _ => false).length

theorem lookup_mem_snd (l : List (String × Handler)) (k : String) (h : Handler)
    (hl : l.lookup k = some h) : h ∈ l.map Prod.snd := by
  induction l with
  | nil => exact Option.noConfusion hl
  | cons a as ih =>
    obtain ⟨k1, v⟩ := a
    simp only [List.lookup] at hl
    split at hl
    · injection hl with hv
      subst hv
      exact List.mem_cons_self _ _
    · exact List.mem_cons_of_mem _ (ih hl)

theorem invoke_no_shutdown (h : Handler) (hmem : h ∈ command_map.map Prod.snd)
    (env : CoreEnv) (arg : Option JVal) (effs : List Effect)
    (hi : invoke h env arg = .ok effs) : countShutdown effs = 0 := by
  simp only [command_map, List.map_cons, List.map_nil, List.mem_cons,
    List.not_mem_nil, or_false] at hmem
  rcases hmem with rfl|rfl|rfl|rfl|rfl|rfl|rfl|rfl|rfl|rfl|rfl|rfl|rfl|rfl|rfl|rfl|
    rfl|rfl|rfl|rfl|rfl|rfl|rfl|rfl|rfl|rfl|rfl|rfl|rfl|rfl|rfl|rfl <;>
  · cases arg with
    | none =>
      first
      | exact Except.noConfusion hi
      | (simp only [invoke, get_analog_map, get_capability_report, get_firmware_version,
          get_protocol_version, get_pymata_version] at hi
         repeat' split at hi
         all_goals first
         | exact Except.noConfusion hi
         | (injection hi with hh; rw [← hh]; rfl))
    | some v =>
      first
      | exact Except.noConfusion hi
      | (simp only [invoke, analog_read, analog_write, digital_read, digital_write,
          disable_analog_reporting, disable_digital_reporting, encoder_config,
          encoder_read, get_analog_latch_data, get_digital_latch_data,
          get_pinstate_report, i2c_config, i2c_read_data, i2c_read_request,
          i2c_write_request, play_tone, set_analog_latch, set_digital_latch,
          set_pin_mode, set_sampling_interval, sonar_config, sonar_read,
          servo_config, stepper_config, stepper_step, slicedLatch,
          bind, Except.bind, pure, Except.pure] at hi
         repeat' split at hi
         all_goals first
         | exact Except.noConfusion hi
         | (injection hi with hh; rw [← hh]; rfl))

theorem processMessage_no_shutdown (env : CoreEnv) (d : CmdDict) (effs : List Effect)
    (hp : processMessage env d = .ok effs) : countShutdown effs = 0 := by
  obtain ⟨m, pa⟩ := d
  cases m with
  | none =>
    have h2 : Except.ok ([] : List Effect) = Except.ok effs := hp
    injection h2 with h3
    rw [← h3]
    rfl
  | some v =>
    cases v with
    | null =>
      have h2 : Except.ok ([] : List Effect) = Except.ok effs := hp
      injection h2 with h3
      rw [← h3]
      rfl
    | int n =>
      have h2 : Except.ok ([] : List Effect) = Except.ok effs := hp
      injection h2 with h3
      rw [← h3]
      rfl
    | arr es =>
      exact Except.noConfusion (show Except.error PyErr.typeError = Except.ok effs from hp)
    | str name =>
      have e : processMessage env ⟨some (.str name), pa⟩ =
          (match command_map.lookup name with
           | some cmd =>
             match pySubscript0 pa with
             | .error er => .error er
             | .ok p0 =>
               if !pyEqStr p0 "null" then invoke cmd env pa else invoke cmd env none
           | none => (Except.ok [] : Except PyErr (List Effect))) := rfl
      rw [e] at hp
      cases hl : command_map.lookup name with
      | none =>
        rw [hl] at hp
        have h2 : Except.ok ([] : List Effect) = Except.ok effs := hp
        injection h2 with h3
        rw [← h3]
        rfl
      | some cmd =>
        rw [hl] at hp
        have hmem := lookup_mem_snd _ _ _ hl
        cases hs : pySubscript0 pa with
        | error er =>
          rw [hs] at hp
          exact Except.noConfusion hp
        | ok p0 =>
          rw [hs] at hp
          have hp2 : (if !pyEqStr p0 "null" then invoke cmd env pa
              else invoke cmd env none) = Except.ok effs := hp
          by_cases hb : (!pyEqStr p0 "null") = true
          · rw [if_pos hb] at hp2
            exact invoke_no_shutdown cmd hmem env pa effs hp2
          · rw [if_neg hb] at hp2
            exact invoke_no_shutdown cmd hmem env none effs hp2

/-- C8: the close event runs exactly one device-interface `shutdown`
invocation, and it is the only source of one: the open event sends only
the reset command, and no dispatched inbound command ever produces a
`shutdown` effect, so shutdown happens exactly once per connection
close. -/
theorem claim_C8 :
    onClose = [.call "shutdown" [] none] ∧
    countShutdown onClose = 1 ∧
    countShutdown onOpen = 0 ∧
    (∀ (env : CoreEnv) (d : CmdDict) (effs : List Effect),
      processMessage env d = .ok effs → countShutdown effs = 0) :=
  ⟨rfl, rfl, rfl, processMessage_no_shutdown⟩

/-- C8 witness: instantiating the dispatch conjunct at a concrete
message. -/
theorem claim_C8_witness :
    onClose = [.call "shutdown" [] none] ∧ countShutdown [] = 0 :=
  ⟨claim_C8.1,
   claim_C8.2.2.2 envNull ⟨some (.str "bogus"), some (.arr [.str "1"])⟩ [] rfl⟩
